import Mathlib

set_option maxRecDepth 8000

/-!
Verification development for the FastAPI chatbot in `src/main.py`.

The program text is shallowly embedded over `List Char` (one element per
Python `str` character).  The two regular expressions of `extract_city`,
the greeting/help regexes of `chat`, Python truthiness, `str.strip`,
`str.lower` and the `dict.get` defaults are all modelled explicitly, at
ASCII granularity (the claims and the program's literals are ASCII; the
extra Unicode whitespace/word characters of Python's `re` module play no
role in any claim).  The outbound HTTP calls of `fetch_weather` and
`call_openai` are modelled as explicit collaborator functions returning
`Except Unit`, whose `error` case stands for any raised exception
(network error, timeout, malformed JSON/missing key): the original code
wraps each body in `try/except` and converts every such exception to a
fixed fallback, which the embedding mirrors.  JSON numeric fields are
modelled as integers (the concrete scenarios of the spec use integers).
-/

namespace Chatbot

/-- Python regex whitespace class `\s` and the `str.strip` character set,
ASCII model: space, tab, newline, vertical tab, form feed, carriage return. -/
def isSpaceChar (c : Char) : Bool :=
  c.toNat == 32 || (9 ≤ c.toNat && c.toNat ≤ 13)

/-- The apostrophe character (code point 39). -/
def apos : Char := Char.ofNat 39

/-- The character class of both capture groups in `extract_city`:
`[a-zA-Z\s'.-]` (letters, whitespace, apostrophe, period, hyphen). -/
def isClassA (c : Char) : Bool :=
  c.isAlpha || isSpaceChar c || c == apos || c == '.' || c == '-'

/-- Python regex word character `\w` (ASCII model), used for `\b`. -/
def isWordChar (c : Char) : Bool :=
  c.isAlphanum || c == '_'

/-- Python `str.lower` (ASCII model). -/
def lowerList (l : List Char) : List Char := l.map Char.toLower

/-- Python `str.strip()`: remove leading and trailing whitespace. -/
def pstrip (l : List Char) : List Char :=
  (((l.dropWhile isSpaceChar).reverse).dropWhile isSpaceChar).reverse

/-- `hasPrefixList p l` holds when `p` is a prefix of `l` (exact characters). -/
def hasPrefixList : List Char → List Char → Bool
  | [], _ => true
  | _ :: _, [] => false
  | p :: ps, c :: cs => p == c && hasPrefixList ps cs

/-- `isSubList p l` holds when `p` occurs contiguously inside `l`
(Python's `p in l` on strings). -/
def isSubList (pat : List Char) : List Char → Bool
  | [] => hasPrefixList pat []
  | c :: cs => hasPrefixList pat (c :: cs) || isSubList pat cs

/-- Case-insensitive literal match: drop `pat` (compared via `Char.toLower`
on both sides) from the front of `l`, returning the rest. -/
def dropPrefixCI : List Char → List Char → Option (List Char)
  | [], l => some l
  | _ :: _, [] => none
  | p :: ps, c :: cs =>
    if Char.toLower c == Char.toLower p then dropPrefixCI ps cs else none

def wWeather : List Char := "weather".toList

def kwIn : List Char := "in".toList

def kwAt : List Char := "at".toList

def kwFor : List Char := "for".toList

/-- The alternation `(?:in|at|for)` of the first `extract_city` regex.
The three alternatives start with distinct letters, so at most one can
match at a given position and the regex alternation is deterministic. -/
def dropKw3 (l : List Char) : Option (List Char) :=
  match dropPrefixCI kwIn l with
  | some r => some r
  | none =>
    match dropPrefixCI kwAt l with
    | some r => some r
    | none => dropPrefixCI kwFor l

/-- One anchored attempt of the first `extract_city` regex
`weather\s+(?:in|at\x7cfor)\s+([a-zA-Z\s'.-]\x7b2,\x7d)` (IGNORECASE) at the start
of `l`, returning the capture group.  The final `\s+` is greedy but gives
whitespace back to the greedy `\x7b2,\x7d` capture when the run of class
characters after the whitespace is shorter than 2, keeping at least one
whitespace character — exactly Python's backtracking order (maximal `\s+`
first, so the giveback is minimal). -/
def tryA (l : List Char) : Option (List Char) :=
  match dropPrefixCI wWeather l with
  | none => none
  | some r0 =>
    let ws1 := r0.takeWhile isSpaceChar
    let r1 := r0.dropWhile isSpaceChar
    if ws1.isEmpty then none
    else
      match dropKw3 r1 with
      | none => none
      | some r2 =>
        let ws2 := r2.takeWhile isSpaceChar
        let r3 := r2.dropWhile isSpaceChar
        let cap := r3.takeWhile isClassA
        if ws2.isEmpty then none
        else if 2 ≤ cap.length then some cap
        else if cap.length == 1 && 2 ≤ ws2.length then
          some (ws2.drop (ws2.length - 1) ++ cap)
        else if cap.length == 0 && 3 ≤ ws2.length then
          some (ws2.drop (ws2.length - 2) ++ cap)
        else none

/-- `re.search` of the first `extract_city` regex: leftmost attempt wins. -/
def searchA : List Char → Option (List Char)
  | [] => none
  | c :: rest =>
    match tryA (c :: rest) with
    | some s => some s
    | none => searchA rest

/-- The alternation `(?:in|at)` of the second `extract_city` regex. -/
def dropKw2 (l : List Char) : Option (List Char) :=
  match dropPrefixCI kwIn l with
  | some r => some r
  | none => dropPrefixCI kwAt l

/-- Leading `\b` before `in`/`at`: both keywords start with a word
character, so the boundary holds exactly when the previous character is
absent (start of string) or not a word character. -/
def wordOk (prev : Option Char) : Bool :=
  match prev with
  | none => true
  | some c => !(isWordChar c)

/-- The character right after the length-`k` capture prefix of `src`:
inside `src` when `k < src.length`, else the first character of `tail`. -/
def nextCharAt (src tail : List Char) (k : Nat) : Option Char :=
  match src.drop k with
  | c :: _ => some c
  | [] => tail.head?

/-- A `\b` word boundary between a last matched character and the
following character (absent at end of string). -/
def boundary2 (lastc : Char) (next : Option Char) : Bool :=
  match next with
  | none => isWordChar lastc
  | some c => isWordChar lastc != isWordChar c

/-- Does the length-`k` prefix of `src` end at a `\b` word boundary? -/
def capOKAt (src tail : List Char) (k : Nat) : Bool :=
  match (src.take k).getLast? with
  | none => false
  | some lc => boundary2 lc (nextCharAt src tail k)

/-- Greedy capture with trailing `\b`: the longest prefix of `src` of
length at least 2 whose end sits on a word boundary (`k` counts down). -/
def bestCaptureAux (src tail : List Char) : Nat → Option (List Char)
  | 0 => none
  | k + 1 =>
    if 2 ≤ k + 1 && capOKAt src tail (k + 1) then some (src.take (k + 1))
    else bestCaptureAux src tail k

def bestCapture (src tail : List Char) : Option (List Char) :=
  bestCaptureAux src tail src.length

/-- Backtracking loop over the `\s+` of the second regex: `ks` is the
still-kept whitespace (reversed, so its head is the rightmost kept space)
and `give` the whitespace already given over to the capture; each
iteration attempts the greedy capture on `give ++ R` and on failure moves
one more space from the keyword side to the capture. `\s+` must keep at
least one character, hence the empty-`ks` failure case. -/
def loopB : List Char → List Char → List Char → List Char → Option (List Char)
  | [], _, _, _ => none
  | s :: ks, give, R, T =>
    match bestCapture (give ++ R) T with
    | some c => some c
    | none => loopB ks (s :: give) R T

/-- One anchored attempt of the second `extract_city` regex
`\b(?:in|at)\s+([A-Za-z\s'.-]\x7b2,\x7d)\b` (IGNORECASE), where `prev` is the
character just before this position (for the leading `\b`). -/
def tryB (prev : Option Char) (l : List Char) : Option (List Char) :=
  if wordOk prev then
    match dropKw2 l with
    | none => none
    | some r =>
      let S := r.takeWhile isSpaceChar
      let r3 := r.dropWhile isSpaceChar
      let R := r3.takeWhile isClassA
      let T := r3.dropWhile isClassA
      if S.isEmpty then none
      else loopB S.reverse [] R T
  else none

/-- `re.search` of the second `extract_city` regex. -/
def searchB (prev : Option Char) : List Char → Option (List Char)
  | [] => none
  | c :: rest =>
    match tryB prev (c :: rest) with
    | some s => some s
    | none => searchB (some c) rest

/-- Does the whole word `w` (IGNORECASE, `\b` on both sides) start here? -/
def wordHit (w : List Char) (prev : Option Char) (l : List Char) : Bool :=
  wordOk prev &&
    match dropPrefixCI w l with
    | none => false
    | some rest =>
      match rest with
      | [] => true
      | c :: _ => !(isWordChar c)

/-- `re.search` existence for an alternation of whole words, e.g.
`\b(hi|hello|hey)\b` or `\bhelp\b` with `re.I`.  (All alternatives start
with distinct letters, so alternation order is immaterial for existence.) -/
def searchWord (ws : List (List Char)) (prev : Option Char) : List Char → Bool
  | [] => false
  | c :: rest =>
    ws.any (fun w => wordHit w prev (c :: rest)) || searchWord ws (some c) rest

/-- `extract_city` from `src/main.py`: first regex wins; the second only
counts when the word `weather` occurs in the lowered text; captures are
returned `.strip()`ped; otherwise `None`. -/
def extract_city (text : List Char) : Option (List Char) :=
  match searchA text with
  | some c => some (pstrip c)
  | none =>
    match searchB none text with
    | some c => if isSubList wWeather (lowerList text) then some (pstrip c) else none
    | none => none

/-! ### Weather fetcher (`fetch_weather`) -/

/-- One geocoding hit: `latitude`, `longitude`, `name` are accessed with
`r[...]` (required — a missing key raises, which the surrounding
`try/except` turns into the collaborator-failure case); `country` is
accessed with `r.get("country", "")`, hence optional with default. -/
structure GeoHit where
  latitude : Int
  longitude : Int
  name : List Char
  country : Option (List Char)

/-- Current-weather data: the three fields are read with `cw.get(...)`,
so each may be missing (`None`). -/
structure CurrentWeather where
  temperature : Option Int
  windspeed : Option Int
  weathercode : Option Int

/-- The two outbound collaborators of `fetch_weather`.  `Except.error ()`
stands for any exception raised during the call or while decoding its
JSON (network error, timeout, malformed response): the whole body of
`fetch_weather` sits in one `try/except Exception` that returns `None`.
`geocode` yields the `results` list (a missing `results` key behaves like
an empty list: both are falsy); `forecast` yields
`f.get("current_weather") or \x7b\x7d`, where `none` stands for a missing or
empty `current_weather` object. -/
structure WeatherEnv where
  geocode : List Char → Except Unit (List GeoHit)
  forecast : Int → Int → Except Unit (Option CurrentWeather)

/-- Decimal digits of a natural number, with fuel (`fuel > n` suffices). -/
def natDigits : Nat → Nat → List Char
  | 0, _ => []
  | fuel + 1, n =>
    if n < 10 then [Char.ofNat (48 + n)]
    else natDigits fuel (n / 10) ++ [Char.ofNat (48 + n % 10)]

/-- Python `str` of an integer. -/
def showInt (i : Int) : List Char :=
  if i < 0 then '-' :: natDigits (i.natAbs + 1) i.natAbs
  else natDigits (i.natAbs + 1) i.natAbs

/-- Rendering of an optional JSON number inside the f-string:
Python formats a missing value (`None`) as the text `None`. -/
def showOptInt : Option Int → List Char
  | none => "None".toList
  | some n => showInt n

/-- The `code_map` dictionary of `fetch_weather`, as a partial lookup. -/
def code_map (c : Int) : Option (List Char) :=
  if c = 0 then some ("clear".toList)
  else if c = 1 then some ("mainly clear".toList)
  else if c = 2 then some ("partly cloudy".toList)
  else if c = 3 then some ("overcast".toList)
  else if c = 45 then some ("fog".toList)
  else if c = 48 then some ("depositing rime fog".toList)
  else if c = 51 then some ("light drizzle".toList)
  else if c = 53 then some ("drizzle".toList)
  else if c = 55 then some ("dense drizzle".toList)
  else if c = 61 then some ("light rain".toList)
  else if c = 63 then some ("rain".toList)
  else if c = 65 then some ("heavy rain".toList)
  else if c = 71 then some ("light snow".toList)
  else if c = 73 then some ("snow".toList)
  else if c = 75 then some ("heavy snow".toList)
  else if c = 80 then some ("rain showers".toList)
  else if c = 81 then some ("heavy rain showers".toList)
  else if c = 82 then some ("violent rain showers".toList)
  else none

/-- `int(weathercode or -1)`: Python's `or` replaces a falsy left operand,
so both a missing weather code and the code `0` become `-1`. -/
def effCode : Option Int → Int
  | none => -1
  | some c => if c = 0 then -1 else c

/-- `code_map.get(int(weathercode or -1), "conditions available")`. -/
def conditionText (wc : Option Int) : List Char :=
  (code_map (effCode wc)).getD ("conditions available".toList)

/-- The degree sign used in the reply f-string. -/
def degC : List Char := "°C".toList

/-- The f-string
`f"Weather for \x7bname\x7d, \x7bcountry\x7d: \x7btemp\x7d°C, \x7bcond\x7d, wind \x7bwind\x7d km/h."`. -/
def weatherText (name country : List Char) (temp : Option Int)
    (cond : List Char) (wind : Option Int) : List Char :=
  "Weather for ".toList ++ name ++ ", ".toList ++ country ++ ": ".toList ++
    showOptInt temp ++ degC ++ ", ".toList ++ cond ++ ", wind ".toList ++
    showOptInt wind ++ " km/h.".toList

/-- `fetch_weather` from `src/main.py`.  Every failure path of the
original (raised exception in either call, empty `results`, empty or
missing `current_weather`) returns `none`; totality of this Lean function
is the embedded form of "never raises to its caller". -/
def fetch_weather (wenv : WeatherEnv) (city : List Char) : Option (List Char) :=
  match wenv.geocode city with
  | Except.error _ => none
  | Except.ok hits =>
    match hits with
    | [] => none
    | r :: _ =>
      match wenv.forecast r.latitude r.longitude with
      | Except.error _ => none
      | Except.ok none => none
      | Except.ok (some cw) =>
        some (weatherText r.name (r.country.getD []) cw.temperature
          (conditionText cw.weathercode) cw.windspeed)

/-! ### Completion fallback (`call_openai`) -/

/-- The completion collaborator: `complete` yields the string
`resp["choices"][0]["message"]["content"]`; `Except.error ()` stands for
any exception on the way there (network or auth failure, missing key,
empty `choices`, non-string content — all raise and are caught). -/
structure OpenAIEnv where
  complete : List Char → Except Unit (List Char)

/-- The fixed error reply of `call_openai`. -/
def openaiErrorReply : List Char := "Error calling OpenAI API.".toList

/-- `call_openai` from `src/main.py`: the first choice's content,
`.strip()`ped, or the fixed error string on any exception. -/
def call_openai (oenv : OpenAIEnv) (prompt : List Char) : List Char :=
  match oenv.complete prompt with
  | Except.ok content => pstrip content
  | Except.error _ => openaiErrorReply

/-! ### The `/chat` endpoint -/

/-- The environment-derived configuration: `USE_OPENAI` (boolean flag)
and `OPENAI_API_KEY` (credential string, truthy iff non-empty). -/
structure Config where
  use_openai : Bool
  openai_api_key : List Char

def qc : Char := apos

/-- Reply literal of the greeting branch. -/
def greetingReply : List Char :=
  "Hey! Ask me for the weather: e.g., ".toList ++ [qc] ++
    "weather in Tokyo".toList ++ [qc] ++ ".".toList

/-- Reply literal of the help branch. -/
def helpReply : List Char :=
  "I can fetch current weather via Open-Meteo. Try ".toList ++ [qc] ++
    "weather in <city>".toList ++ [qc] ++ ".".toList

/-- Reply literal of the final fallback. -/
def fallbackReply : List Char :=
  "Got it! (Tip: try ".toList ++ [qc] ++ "weather in Berlin".toList ++ [qc] ++
    ")".toList

def greetWords : List (List Char) := ["hi".toList, "hello".toList, "hey".toList]

def helpWords : List (List Char) := ["help".toList]

/-- The weather part of `chat`: `city = extract_city(text)`, then
`if city: w = fetch_weather(city); if w: return ...` — both `if`s are
Python truthiness tests (`None` and the empty string are falsy). -/
def weatherReplyOf (wenv : WeatherEnv) (text : List Char) : Option (List Char) :=
  match extract_city text with
  | none => none
  | some city =>
    if city.isEmpty then none
    else
      match fetch_weather wenv city with
      | none => none
      | some w => if w.isEmpty then none else some w

/-- The branches of `chat` after the weather branch did not return:
the OpenAI path when `USE_OPENAI and OPENAI_API_KEY`, else the greeting
regex, else the help regex, else the generic fallback. -/
def afterWeather (cfg : Config) (oenv : OpenAIEnv) (text : List Char) : List Char :=
  if cfg.use_openai && !cfg.openai_api_key.isEmpty then call_openai oenv text
  else if searchWord greetWords none text then greetingReply
  else if searchWord helpWords none text then helpReply
  else fallbackReply

/-- The reply string computed by the `/chat` handler for the request
body field `message`: `text = req.message.strip()` and then the branch
cascade of `chat` in `src/main.py`. -/
def chat (cfg : Config) (wenv : WeatherEnv) (oenv : OpenAIEnv)
    (message : List Char) : List Char :=
  let text := pstrip message
  match weatherReplyOf wenv text with
  | some w => w
  | none => afterWeather cfg oenv text

/-- An HTTP response of the endpoint: every `return` in `chat` is
`JSONResponse(\x7b"reply": ...\x7d)` with FastAPI's default status code 200. -/
structure ChatResponse where
  status : Nat
  reply : List Char

/-- The `/chat` endpoint as a whole: one JSON response per request. -/
def chatEndpoint (cfg : Config) (wenv : WeatherEnv) (oenv : OpenAIEnv)
    (message : List Char) : ChatResponse :=
  ⟨200, chat cfg wenv oenv message⟩

/-! ### Spec-modelled calculation branch

`src/main.py` contains no calculation branch: the spec documents it from
another variant of this repository that is not present under `src/`.
The definitions below are therefore modelled from the spec's words
(sections 4.1, 4.4 and 8), not from source code. -/

/-- Modelled from the spec: the enumerated `Intent` classification result
(spec section 3), one of Weather, Calculation, Smalltalk, Fallback. -/
inductive Intent where
  | Weather
  | Calculation
  | Smalltalk
  | Fallback
deriving DecidableEq

def calcKw : List Char := "calc".toList

/-- Modelled from the spec: tokens of the restricted expression grammar
(spec section 4.4) — integer literals, the operators `+ - * / % ^` and
parentheses.  The whitelisted math functions and constants
(sqrt/sin/cos/pi/e) are omitted: no claim exercises them and they do not
affect the integer-arithmetic fragment used here. -/
inductive Tok where
  | num (n : Nat)
  | op (c : Char)

def opChars : List Char := ['+', '-', '*', '/', '%', '^', '(', ')']

def digitsToNat (ds : List Char) : Nat :=
  ds.foldl (fun a c => a * 10 + (c.toNat - 48)) 0

/-- Modelled from the spec: tokenizer of the restricted grammar; any
character outside the closed token set is rejected (spec section 4.4
"rejecting any token outside that grammar").  Fuel-driven; the initial
fuel `length + 1` always suffices. -/
def tokenizeAux : Nat → List Char → Except Unit (List Tok)
  | 0, _ => Except.error ()
  | _, [] => Except.ok []
  | fuel + 1, c :: cs =>
    if isSpaceChar c then tokenizeAux fuel cs
    else if c.isDigit then
      let ds := c :: cs.takeWhile Char.isDigit
      let rest := cs.dropWhile Char.isDigit
      match tokenizeAux fuel rest with
      | Except.ok ts => Except.ok (Tok.num (digitsToNat ds) :: ts)
      | Except.error e => Except.error e
    else if opChars.contains c then
      match tokenizeAux fuel cs with
      | Except.ok ts => Except.ok (Tok.op c :: ts)
      | Except.error e => Except.error e
    else Except.error ()

def tokenize (l : List Char) : Except Unit (List Tok) :=
  tokenizeAux (l.length + 1) l

mutual

/-- Modelled from the spec: atoms — integer literal, unary minus,
parenthesized expression. -/
def parseAtom : Nat → List Tok → Except Unit (Int × List Tok)
  | 0, _ => Except.error ()
  | fuel + 1, ts =>
    match ts with
    | Tok.num n :: rest => Except.ok (Int.ofNat n, rest)
    | Tok.op '-' :: rest =>
      match parseAtom fuel rest with
      | Except.ok (v, r) => Except.ok (-v, r)
      | Except.error e => Except.error e
    | Tok.op '(' :: rest =>
      match parseSum fuel rest with
      | Except.ok (v, Tok.op ')' :: r) => Except.ok (v, r)
      | _ => Except.error ()
    | _ => Except.error ()

/-- Modelled from the spec: right-associative exponentiation `^`;
a negative exponent is a Calculation-Error in the integer fragment. -/
def parsePow : Nat → List Tok → Except Unit (Int × List Tok)
  | 0, _ => Except.error ()
  | fuel + 1, ts =>
    match parseAtom fuel ts with
    | Except.error e => Except.error e
    | Except.ok (v, r) =>
      match r with
      | Tok.op '^' :: r2 =>
        match parsePow fuel r2 with
        | Except.ok (e2, r3) =>
          if e2 < 0 then Except.error () else Except.ok (v ^ e2.natAbs, r3)
        | Except.error e => Except.error e
      | _ => Except.ok (v, r)

/-- Modelled from the spec: left-associative `* / %` with division by
zero signalled as a Calculation-Error; integer division truncates toward
minus infinity (the arithmetic choice is irrelevant to the claims). -/
def parseProd : Nat → List Tok → Except Unit (Int × List Tok)
  | 0, _ => Except.error ()
  | fuel + 1, ts =>
    match parsePow fuel ts with
    | Except.error e => Except.error e
    | Except.ok (v, r) => parseProdLoop fuel v r

def parseProdLoop : Nat → Int → List Tok → Except Unit (Int × List Tok)
  | 0, _, _ => Except.error ()
  | fuel + 1, acc, ts =>
    match ts with
    | Tok.op '*' :: r =>
      match parsePow fuel r with
      | Except.ok (v, r2) => parseProdLoop fuel (acc * v) r2
      | Except.error e => Except.error e
    | Tok.op '/' :: r =>
      match parsePow fuel r with
      | Except.ok (v, r2) =>
        if v = 0 then Except.error () else parseProdLoop fuel (acc / v) r2
      | Except.error e => Except.error e
    | Tok.op '%' :: r =>
      match parsePow fuel r with
      | Except.ok (v, r2) =>
        if v = 0 then Except.error () else parseProdLoop fuel (acc % v) r2
      | Except.error e => Except.error e
    | _ => Except.ok (acc, ts)

/-- Modelled from the spec: left-associative `+ -`. -/
def parseSum : Nat → List Tok → Except Unit (Int × List Tok)
  | 0, _ => Except.error ()
  | fuel + 1, ts =>
    match parseProd fuel ts with
    | Except.error e => Except.error e
    | Except.ok (v, r) => parseSumLoop fuel v r

def parseSumLoop : Nat → Int → List Tok → Except Unit (Int × List Tok)
  | 0, _, _ => Except.error ()
  | fuel + 1, acc, ts =>
    match ts with
    | Tok.op '+' :: r =>
      match parseProd fuel r with
      | Except.ok (v, r2) => parseSumLoop fuel (acc + v) r2
      | Except.error e => Except.error e
    | Tok.op '-' :: r =>
      match parseProd fuel r with
      | Except.ok (v, r2) => parseSumLoop fuel (acc - v) r2
      | Except.error e => Except.error e
    | _ => Except.ok (acc, ts)

end

/-- Modelled from the spec: `evaluate(expr) -> number | error`
(spec section 4.4) on the integer fragment of the restricted grammar. -/
def evaluate (e : List Char) : Except Unit Int :=
  match tokenize e with
  | Except.error _ => Except.error ()
  | Except.ok ts =>
    match parseSum (4 * (ts.length + 1)) ts with
    | Except.ok (v, []) => Except.ok v
    | _ => Except.error ()

/-- Modelled from the spec: whether the trimmed text begins
(case-insensitively) with the calculation trigger keyword `calc`
(spec section 4.1: "simple prefix/keyword test (case-insensitive,
whitespace-trimmed)"). -/
def calcTrigger (text : List Char) : Bool :=
  hasPrefixList calcKw (lowerList (pstrip text))

/-- Modelled from the spec: `classify(text) -> Intent` (spec section
4.1).  The weather-query pattern of the spec is exactly the pattern pair
of `extract_city`; weather takes precedence, then the calculation
trigger, then greeting small-talk, then fallback. -/
def classify_spec (text : List Char) : Intent :=
  if (extract_city text).isSome then Intent.Weather
  else if calcTrigger text then Intent.Calculation
  else if searchWord greetWords none text then Intent.Smalltalk
  else Intent.Fallback

/-- Modelled from the spec: the Calculation handler — evaluate the text
after the trigger keyword and format the numeric result as
`Result: \x7bvalue\x7d` (spec section 4.4), or render a Calculation-Error as a
user-facing apology. -/
def calc_reply (text : List Char) : List Char :=
  match evaluate (pstrip ((pstrip text).drop calcKw.length)) with
  | Except.ok v => "Result: ".toList ++ showInt v
  | Except.error _ => "Sorry, I could not evaluate that expression.".toList

/-! ### Helper lemmas -/

theorem hasPrefixList_append (p l b : List Char)
    (h : hasPrefixList p l = true) : hasPrefixList p (l ++ b) = true := by
  induction p generalizing l with
  | nil => simp [hasPrefixList]
  | cons x xs ih =>
    cases l with
    | nil => simp [hasPrefixList] at h
    | cons c cs =>
      simp only [hasPrefixList, List.cons_append, Bool.and_eq_true] at h ⊢
      exact ⟨h.1, ih cs h.2⟩

theorem isSubList_cons (p : List Char) (c : Char) (l : List Char)
    (h : isSubList p l = true) : isSubList p (c :: l) = true := by
  cases l with
  | nil =>
    simp only [isSubList] at h ⊢
    simp [h]
  | cons d ds =>
    simp only [isSubList] at h ⊢
    simp [h]

theorem isSubList_append_left (p a l : List Char)
    (h : isSubList p l = true) : isSubList p (a ++ l) = true := by
  induction a with
  | nil => simpa using h
  | cons c cs ih => simpa using isSubList_cons p c (cs ++ l) ih

theorem isSubList_append_right (p l b : List Char)
    (h : isSubList p l = true) : isSubList p (l ++ b) = true := by
  induction l with
  | nil =>
    simp only [isSubList] at h
    cases p with
    | nil => cases b with
      | nil => simpa using h
      | cons x xs => simp [isSubList, hasPrefixList]
    | cons y ys => simp [hasPrefixList] at h
  | cons c cs ih =>
    simp only [isSubList, Bool.or_eq_true] at h ⊢
    rcases h with h | h
    · exact Or.inl (hasPrefixList_append p (c :: cs) b h)
    · exact Or.inr (ih h)

theorem pstrip_infix (l : List Char) :
    ∃ a b, l = a ++ pstrip l ++ b := by
  refine ⟨l.takeWhile isSpaceChar,
    ((l.dropWhile isSpaceChar).reverse.takeWhile isSpaceChar).reverse, ?_⟩
  unfold pstrip
  conv_lhs => rw [← List.takeWhile_append_dropWhile isSpaceChar l]
  rw [List.append_assoc]
  congr 1
  conv_lhs => rw [← List.reverse_reverse (l.dropWhile isSpaceChar)]
  rw [← List.reverse_append,
    List.takeWhile_append_dropWhile isSpaceChar (l.dropWhile isSpaceChar).reverse]

theorem isSubList_of_pstrip (p l : List Char)
    (h : isSubList p (lowerList (pstrip l)) = true) :
    isSubList p (lowerList l) = true := by
  obtain ⟨a, b, hl⟩ := pstrip_infix l
  rw [hl]
  unfold lowerList
  rw [List.map_append, List.map_append, List.append_assoc]
  exact isSubList_append_left _ _ _
    (isSubList_append_right _ _ _ h)

theorem dropPrefixCI_lower (p l r : List Char)
    (h : dropPrefixCI p l = some r) :
    hasPrefixList (lowerList p) (lowerList l) = true := by
  induction p generalizing l with
  | nil => simp [lowerList, hasPrefixList]
  | cons x xs ih =>
    cases l with
    | nil => simp [dropPrefixCI] at h
    | cons c cs =>
      simp only [dropPrefixCI] at h
      by_cases hc : (Char.toLower c == Char.toLower x) = true
      · simp only [hc, if_true] at h
        simp only [lowerList, List.map_cons, hasPrefixList, Bool.and_eq_true]
        refine ⟨?_, ih cs h⟩
        have := eq_of_beq hc
        simp [this]
      · simp [hc] at h

theorem map_toLower_wWeather : lowerList wWeather = wWeather := by decide

theorem tryA_geo (l s : List Char) (h : tryA l = some s) :
    ∃ r0, dropPrefixCI wWeather l = some r0 := by
  unfold tryA at h
  cases hd : dropPrefixCI wWeather l with
  | none => rw [hd] at h; simp at h
  | some r0 => exact ⟨r0, rfl⟩

theorem searchA_weather (t s : List Char) (h : searchA t = some s) :
    isSubList wWeather (lowerList t) = true := by
  induction t with
  | nil => simp [searchA] at h
  | cons c rest ih =>
    rw [searchA] at h
    cases ht : tryA (c :: rest) with
    | some cap =>
      obtain ⟨r0, hr0⟩ := tryA_geo _ _ ht
      have hp := dropPrefixCI_lower wWeather (c :: rest) r0 hr0
      rw [map_toLower_wWeather] at hp
      cases hrest : lowerList (c :: rest) with
      | nil => simp [lowerList] at hrest
      | cons d ds =>
        rw [hrest] at hp
        simp [isSubList, hp]
    | none =>
      rw [ht] at h
      simp only [lowerList, List.map_cons]
      exact isSubList_cons _ _ _ (ih h)

theorem extract_city_none_of_no_weather (t : List Char)
    (h : isSubList wWeather (lowerList t) = false) :
    extract_city t = none := by
  unfold extract_city
  cases ha : searchA t with
  | some s => exact absurd (searchA_weather t s ha) (by simp [h])
  | none =>
    cases hb : searchB none t with
    | none => rfl
    | some s => simp [h]

theorem isClassA_of_space (c : Char) (h : isSpaceChar c = true) :
    isClassA c = true := by
  simp [isClassA, h]

theorem mem_takeWhile_classA (l : List Char) (c : Char)
    (h : c ∈ l.takeWhile isClassA) : isClassA c = true :=
  List.mem_takeWhile_imp h

theorem tryA_capture (l s : List Char) (h : tryA l = some s) :
    2 ≤ s.length ∧ ∀ c ∈ s, isClassA c = true := by
  unfold tryA at h
  cases hd : dropPrefixCI wWeather l with
  | none => rw [hd] at h; simp at h
  | some r0 =>
    rw [hd] at h
    dsimp only at h
    split at h
    · simp at h
    · split at h
      · simp at h
      · rename_i r2 hkw
        split at h
        · simp at h
        · split at h
          · rename_i hlen
            cases h
            exact ⟨hlen, fun c hc => mem_takeWhile_classA _ c hc⟩
          · split at h
            · rename_i hcond
              simp only [Bool.and_eq_true, beq_iff_eq, decide_eq_true_eq] at hcond
              cases h
              constructor
              · simp only [List.length_append, List.length_drop]
                omega
              · intro c hc
                rcases List.mem_append.mp hc with hc | hc
                · exact isClassA_of_space c
                    (List.mem_takeWhile_imp (List.mem_of_mem_drop hc))
                · exact mem_takeWhile_classA _ c hc
            · split at h
              · rename_i hcond
                simp only [Bool.and_eq_true, beq_iff_eq, decide_eq_true_eq] at hcond
                cases h
                constructor
                · simp only [List.length_append, List.length_drop]
                  omega
                · intro c hc
                  rcases List.mem_append.mp hc with hc | hc
                  · exact isClassA_of_space c
                      (List.mem_takeWhile_imp (List.mem_of_mem_drop hc))
                  · exact mem_takeWhile_classA _ c hc
              · simp at h

theorem searchA_capture (t s : List Char) (h : searchA t = some s) :
    2 ≤ s.length ∧ ∀ c ∈ s, isClassA c = true := by
  induction t with
  | nil => simp [searchA] at h
  | cons c rest ih =>
    rw [searchA] at h
    cases ht : tryA (c :: rest) with
    | some cap =>
      rw [ht] at h
      cases h
      exact tryA_capture _ _ ht
    | none =>
      rw [ht] at h
      exact ih h

theorem weatherReplyOf_some_ne (wenv : WeatherEnv) (t w : List Char)
    (h : weatherReplyOf wenv t = some w) : w ≠ [] := by
  cases he : extract_city t with
  | none => simp [weatherReplyOf, he] at h
  | some city =>
    simp only [weatherReplyOf, he] at h
    cases hcity : city.isEmpty with
    | true => simp [hcity] at h
    | false =>
      simp only [hcity] at h
      cases hf : fetch_weather wenv city with
      | none => simp [hf] at h
      | some w' =>
        simp only [hf] at h
        cases hw : w'.isEmpty with
        | true => simp [hw] at h
        | false =>
          simp only [hw, Bool.false_eq_true, if_false] at h
          injection h with h'
          subst h'
          simp [← List.isEmpty_iff, hw]

/-! ### Concrete collaborator environments used by witnesses -/

/-- Geocoding resolves every city to Paris, France; the forecast returns
temperature 18, wind 10, weather code 1 (spec section 8 scenario). -/
def wenvParis : WeatherEnv :=
  ⟨fun _ => Except.ok [⟨488, 235, "Paris".toList, some ("France".toList)⟩],
   fun _ _ => Except.ok (some ⟨some 18, some 10, some 1⟩)⟩

/-- Both outbound weather calls raise. -/
def wenvFail : WeatherEnv :=
  ⟨fun _ => Except.error (), fun _ _ => Except.error ()⟩

/-- The completion call raises. -/
def oenvFail : OpenAIEnv := ⟨fun _ => Except.error ()⟩

/-- The completion call succeeds with whitespace-only content. -/
def oenvBlank : OpenAIEnv := ⟨fun _ => Except.ok ("  ".toList)⟩

/-- Completion fallback disabled. -/
def cfgOff : Config := ⟨false, []⟩

/-- Completion fallback enabled with a configured credential. -/
def cfgOn : Config := ⟨true, "k".toList⟩

/-! ### Claims -/

/-- C1: for every input that does not match a weather pattern and begins
(after whitespace trimming, case-insensitively) with the calculation
trigger keyword `calc`, the (spec-modelled) classifier selects the
Calculation intent; in particular `calc 2 + 2` is classified as
Calculation and its reply contains `4`. -/
theorem claim_C1_calc_branch :
    (∀ t, extract_city t = none → calcTrigger t = true →
      classify_spec t = Intent.Calculation) ∧
    classify_spec ("calc 2 + 2".toList) = Intent.Calculation ∧
    isSubList ("4".toList) (calc_reply ("calc 2 + 2".toList)) = true := by
  refine ⟨?_, by decide, by decide⟩
  intro t h1 h2
  simp [classify_spec, h1, h2]

/-- Witness for C1 at the concrete input `calc 2 + 2`. -/
theorem claim_C1_calc_branch_witness :
    classify_spec ("calc 2 + 2".toList) = Intent.Calculation :=
  claim_C1_calc_branch.1 _ (by decide) (by decide)

/-- C2: `fetch_weather` is a total function of the collaborator
behaviour, and yields `none` whenever the geocoding call raises, the
geocoding result list is empty, the forecast call raises, or the
current-conditions data is empty. -/
theorem claim_C2_fetch_weather_absent (wenv : WeatherEnv) (city : List Char) :
    (wenv.geocode city = Except.error () → fetch_weather wenv city = none) ∧
    (wenv.geocode city = Except.ok [] → fetch_weather wenv city = none) ∧
    (∀ r rest, wenv.geocode city = Except.ok (r :: rest) →
      wenv.forecast r.latitude r.longitude = Except.error () →
      fetch_weather wenv city = none) ∧
    (∀ r rest, wenv.geocode city = Except.ok (r :: rest) →
      wenv.forecast r.latitude r.longitude = Except.ok none →
      fetch_weather wenv city = none) := by
  refine ⟨?_, ?_, ?_, ?_⟩ <;> intros <;> simp_all [fetch_weather]

/-- Witness for C2 with a failing geocoding collaborator. -/
theorem claim_C2_fetch_weather_absent_witness :
    wenvFail.geocode [] = Except.error () ∧ fetch_weather wenvFail [] = none :=
  ⟨rfl, (claim_C2_fetch_weather_absent wenvFail []).1 rfl⟩

/-- C3: with geocoding resolving to (lat, lon, Paris, France) and the
forecast returning temperature 18, wind 10, weather code 1, the reply to
`weather in Paris` is exactly
`Weather for Paris, France: 18°C, mainly clear, wind 10 km/h.`
(whatever the completion configuration). -/
theorem claim_C3_paris_scenario (cfg : Config) (oenv : OpenAIEnv) :
    chat cfg wenvParis oenv ("weather in Paris".toList) =
      ("Weather for Paris, France: 18°C, mainly clear, wind 10 km/h.".toList) := rfl

/-- C4: evaluation of the embedded condition mapping.  The first
conjunct shows the divergence at weather code 0: the code computes
`conditions available` although its own `code_map` table maps 0 to
`clear` (second conjunct) — `int(weathercode or -1)` treats the falsy
code 0 like a missing code.  The remaining conjuncts record that every
other known code maps to its table phrase and that missing or
unrecognized codes map to the generic phrase, as the claim states. -/
theorem claim_C4_code_zero_eval :
    conditionText (some 0) = ("conditions available".toList) ∧
    code_map 0 = some ("clear".toList) ∧
    conditionText (some 1) = ("mainly clear".toList) ∧
    conditionText (some 2) = ("partly cloudy".toList) ∧
    conditionText (some 3) = ("overcast".toList) ∧
    conditionText (some 45) = ("fog".toList) ∧
    conditionText (some 48) = ("depositing rime fog".toList) ∧
    conditionText (some 51) = ("light drizzle".toList) ∧
    conditionText (some 53) = ("drizzle".toList) ∧
    conditionText (some 55) = ("dense drizzle".toList) ∧
    conditionText (some 61) = ("light rain".toList) ∧
    conditionText (some 63) = ("rain".toList) ∧
    conditionText (some 65) = ("heavy rain".toList) ∧
    conditionText (some 71) = ("light snow".toList) ∧
    conditionText (some 73) = ("snow".toList) ∧
    conditionText (some 75) = ("heavy snow".toList) ∧
    conditionText (some 80) = ("rain showers".toList) ∧
    conditionText (some 81) = ("heavy rain showers".toList) ∧
    conditionText (some 82) = ("violent rain showers".toList) ∧
    conditionText none = ("conditions available".toList) ∧
    conditionText (some 99) = ("conditions available".toList) := by decide

/-- C5: the reply selection order of the endpoint — weather reply when
the weather branch produced one, else the completion fallback when the
flag and credential are set, else the greeting reply, else the help
reply, else the fixed generic fallback; the five conditions are ordered,
mutually exclusive and exhaustive, so exactly one branch fires. -/
theorem claim_C5_selection_order (cfg : Config) (wenv : WeatherEnv)
    (oenv : OpenAIEnv) (msg : List Char) :
    (∀ w, weatherReplyOf wenv (pstrip msg) = some w →
      chat cfg wenv oenv msg = w) ∧
    (weatherReplyOf wenv (pstrip msg) = none →
      (cfg.use_openai && !cfg.openai_api_key.isEmpty) = true →
      chat cfg wenv oenv msg = call_openai oenv (pstrip msg)) ∧
    (weatherReplyOf wenv (pstrip msg) = none →
      (cfg.use_openai && !cfg.openai_api_key.isEmpty) = false →
      searchWord greetWords none (pstrip msg) = true →
      chat cfg wenv oenv msg = greetingReply) ∧
    (weatherReplyOf wenv (pstrip msg) = none →
      (cfg.use_openai && !cfg.openai_api_key.isEmpty) = false →
      searchWord greetWords none (pstrip msg) = false →
      searchWord helpWords none (pstrip msg) = true →
      chat cfg wenv oenv msg = helpReply) ∧
    (weatherReplyOf wenv (pstrip msg) = none →
      (cfg.use_openai && !cfg.openai_api_key.isEmpty) = false →
      searchWord greetWords none (pstrip msg) = false →
      searchWord helpWords none (pstrip msg) = false →
      chat cfg wenv oenv msg = fallbackReply) := by
  refine ⟨?_, ?_, ?_, ?_, ?_⟩ <;> intros <;> simp_all [chat, afterWeather]

/-- Witness for C5: with the fallback disabled and failing collaborators,
`hello` selects the greeting branch. -/
theorem claim_C5_selection_order_witness :
    chat cfgOff wenvFail oenvFail ("hello".toList) = greetingReply :=
  (claim_C5_selection_order cfgOff wenvFail oenvFail _).2.2.1
    (by decide) (by decide) (by decide)

/-- C6: `extract_city` returns the first regex's capture (trimmed) when
that regex matches — and that capture consists of letters, whitespace,
apostrophes, periods and hyphens and has length at least 2; only when
the first regex fails does the second one count, and only if the word
`weather` occurs in the lowered text; if neither applies the result is
`none`. -/
theorem claim_C6_extract_city (t : List Char) :
    (∀ s, searchA t = some s →
      extract_city t = some (pstrip s) ∧ 2 ≤ s.length ∧
        ∀ c ∈ s, isClassA c = true) ∧
    (searchA t = none → isSubList wWeather (lowerList t) = false →
      extract_city t = none) ∧
    (∀ s, searchA t = none → isSubList wWeather (lowerList t) = true →
      searchB none t = some s → extract_city t = some (pstrip s)) ∧
    (searchA t = none → searchB none t = none → extract_city t = none) := by
  refine ⟨?_, ?_, ?_, ?_⟩
  · intro s hs
    exact ⟨by simp [extract_city, hs], (searchA_capture t s hs).1,
      (searchA_capture t s hs).2⟩
  · intro h1 h2
    unfold extract_city
    rw [h1]
    cases hb : searchB none t with
    | none => rfl
    | some s => simp [h2]
  · intro s h1 h2 h3
    unfold extract_city
    rw [h1, h3]
    simp [h2]
  · intro h1 h2
    unfold extract_city
    rw [h1, h2]

/-- Witness for C6 at the input `weather in Paris`. -/
theorem claim_C6_extract_city_witness :
    extract_city ("weather in Paris".toList) = some (pstrip ("Paris".toList)) ∧
    2 ≤ ("Paris".toList).length ∧
    ∀ c ∈ ("Paris".toList), isClassA c = true :=
  (claim_C6_extract_city _).1 _ (by decide)

/-- C7: `call_openai` returns the first completion's content trimmed of
surrounding whitespace on success, and the fixed error string on any
collaborator failure; totality of the embedding is the never-propagates
part. -/
theorem claim_C7_call_openai (oenv : OpenAIEnv) (prompt : List Char) :
    (∀ c, oenv.complete prompt = Except.ok c →
      call_openai oenv prompt = pstrip c) ∧
    (oenv.complete prompt = Except.error () →
      call_openai oenv prompt = openaiErrorReply) := by
  constructor <;> intros <;> simp_all [call_openai]

/-- Witness for C7 with a failing completion collaborator. -/
theorem claim_C7_call_openai_witness :
    call_openai oenvFail [] = openaiErrorReply :=
  (claim_C7_call_openai oenvFail []).2 rfl

/-- C8 counterexample: with the completion fallback enabled and the
completion service answering whitespace-only content, the endpoint
returns status 200 with an EMPTY reply string — refuting the claim that
the reply string is always non-empty. -/
theorem claim_C8_counterexample :
    (chatEndpoint cfgOn wenvFail oenvBlank ("x".toList)).reply = [] ∧
    (chatEndpoint cfgOn wenvFail oenvBlank ("x".toList)).status = 200 := by
  decide

/-- C8 (amended): every request gets exactly one JSON reply with status
200; the reply string is non-empty unless the completion fallback fired
and the completion's trimmed content was empty, in which case the reply
is the empty string. -/
theorem claim_C8_amended (cfg : Config) (wenv : WeatherEnv) (oenv : OpenAIEnv)
    (msg : List Char) :
    (chatEndpoint cfg wenv oenv msg).status = 200 ∧
    ((chatEndpoint cfg wenv oenv msg).reply = [] →
      cfg.use_openai = true ∧ cfg.openai_api_key ≠ [] ∧
      ∃ c, oenv.complete (pstrip msg) = Except.ok c ∧ pstrip c = []) := by
  constructor
  · rfl
  · intro hr
    have hr' : chat cfg wenv oenv msg = [] := hr
    unfold chat at hr'
    dsimp only at hr'
    cases hw : weatherReplyOf wenv (pstrip msg) with
    | some w =>
      rw [hw] at hr'
      exact absurd hr' (weatherReplyOf_some_ne wenv _ w hw)
    | none =>
      rw [hw] at hr'
      unfold afterWeather at hr'
      cases hflag : (cfg.use_openai && !cfg.openai_api_key.isEmpty) with
      | true =>
        simp only [hflag, if_true] at hr'
        rcases Bool.and_eq_true_iff.mp hflag with ⟨h1, h2⟩
        refine ⟨h1, ?_, ?_⟩
        · simp only [Bool.not_eq_true'] at h2
          simp [← List.isEmpty_iff, h2]
        · unfold call_openai at hr'
          cases hc : oenv.complete (pstrip msg) with
          | ok c =>
            rw [hc] at hr'
            exact ⟨c, rfl, hr'⟩
          | error e =>
            rw [hc] at hr'
            dsimp only at hr'
            exact absurd hr' (by decide)
      | false =>
        simp only [hflag, Bool.false_eq_true, if_false] at hr'
        split at hr'
        · exact absurd hr' (by decide)
        · split at hr'
          · exact absurd hr' (by decide)
          · exact absurd hr' (by decide)

/-- Witness for C8 (amended) at the concrete empty-reply input. -/
theorem claim_C8_amended_witness :
    (chatEndpoint cfgOn wenvFail oenvBlank ("x".toList)).status = 200 ∧
    (cfgOn.use_openai = true ∧ cfgOn.openai_api_key ≠ [] ∧
      ∃ c, oenvBlank.complete (pstrip ("x".toList)) = Except.ok c ∧
        pstrip c = []) :=
  ⟨(claim_C8_amended cfgOn wenvFail oenvBlank _).1,
   (claim_C8_amended cfgOn wenvFail oenvBlank _).2 (by decide)⟩

/-- C9: classification and dispatch are deterministic — with the same
configuration and the same collaborator behaviour, equal input texts
yield equal extraction results, equal weather-branch outcomes and equal
replies (the embedding is a pure function of these inputs, mirroring the
absence of mutable state in the handler). -/
theorem claim_C9_deterministic (cfg : Config) (wenv : WeatherEnv)
    (oenv : OpenAIEnv) (t t' : List Char) (h : t = t') :
    extract_city t = extract_city t' ∧
    weatherReplyOf wenv (pstrip t) = weatherReplyOf wenv (pstrip t') ∧
    chat cfg wenv oenv t = chat cfg wenv oenv t' := by
  subst h
  exact ⟨rfl, rfl, rfl⟩

/-- Witness for C9 at a concrete repeated input. -/
theorem claim_C9_deterministic_witness :
    extract_city ("hello".toList) = extract_city ("hello".toList) ∧
    weatherReplyOf wenvFail (pstrip ("hello".toList)) =
      weatherReplyOf wenvFail (pstrip ("hello".toList)) ∧
    chat cfgOff wenvFail oenvFail ("hello".toList) =
      chat cfgOff wenvFail oenvFail ("hello".toList) :=
  claim_C9_deterministic cfgOff wenvFail oenvFail _ _ rfl

/-- C10: when the word `weather` does not occur (case-insensitively) in
the input, `extract_city` returns `none`, and consequently the reply is
the same whatever the weather collaborators do — the weather branch,
including the geocoding lookup, is never entered. -/
theorem claim_C10_no_weather_no_fetch (cfg : Config) (wenv wenv' : WeatherEnv)
    (oenv : OpenAIEnv) (msg : List Char)
    (h : isSubList wWeather (lowerList msg) = false) :
    extract_city msg = none ∧
    chat cfg wenv oenv msg = chat cfg wenv' oenv msg := by
  have h2 : isSubList wWeather (lowerList (pstrip msg)) = false := by
    cases hx : isSubList wWeather (lowerList (pstrip msg)) with
    | false => rfl
    | true => exact absurd (isSubList_of_pstrip _ _ hx) (by simp [h])
  have h3 : extract_city (pstrip msg) = none :=
    extract_city_none_of_no_weather _ h2
  exact ⟨extract_city_none_of_no_weather msg h,
    by simp [chat, weatherReplyOf, h3]⟩

/-- Witness for C10: on `hi there` the reply does not depend on the
weather collaborators. -/
theorem claim_C10_no_weather_no_fetch_witness :
    extract_city ("hi there".toList) = none ∧
    chat cfgOff wenvParis oenvFail ("hi there".toList) =
      chat cfgOff wenvFail oenvFail ("hi there".toList) :=
  claim_C10_no_weather_no_fetch cfgOff wenvParis wenvFail oenvFail _ (by decide)

end Chatbot
